import Mathlib

/-!
Shallow embedding of the vecna secret-store core (src/vecna/core/vault.py,
src/vecna/core/session.py, src/vecna/models.py, src/vecna/config.py).

Modelling conventions:
* Python `dict[str, T]` (insertion ordered, unique keys) is an association
  list `List (String × T)`; `dictGet`, `dictSet`, `dictPop` mirror indexing,
  assignment and `pop` on a dict whose keys are unique.
* AES-GCM is modelled symbolically: a ciphertext records the key, the nonce
  and the plaintext it was produced from, and `decrypt` succeeds exactly when
  it is given the same key and nonce (the authentication-tag check).
  PBKDF2 key derivation is modelled as the injective pairing of password and
  salt (deterministic, collision-free in the symbolic model).
* The bytes of the JSON serialization produced by `model_dump_json` are
  modelled by the JSON tree itself (`json.dumps`/`json.loads` are mutually
  inverse on this representation).
* Random salts and nonces (`os.urandom`) enter as explicit parameters.
* Python exceptions are modelled by an `Option VaultErr` outcome paired with
  the state as it is when the exception propagates (mutations already
  performed on `self` survive the raise, exactly as in Python).
-/

set_option autoImplicit false

/-- JSON fragment produced by `json.dumps(asdict(model))`: objects keep the
insertion order of the Python dict they came from. -/
inductive Json where
  | null
  | str (s : String)
  | arr (elems : List Json)
  | obj (fields : List (String × Json))
deriving Repr

/-- Lookup in a Python dict modelled as an ordered association list
(`d[k]` / `k in d`). -/
def dictGet {α : Type} (k : String) : List (String × α) → Option α
  | [] => none
  | (k', v) :: rest => if k' = k then some v else dictGet k rest

/-- Assignment `d[k] = v` on a Python dict: replaces the value at an existing
key in place, otherwise appends the new binding at the end. -/
def dictSet {α : Type} (k : String) (v : α) : List (String × α) → List (String × α)
  | [] => [(k, v)]
  | (k', v') :: rest => if k' = k then (k, v) :: rest else (k', v') :: dictSet k v rest

/-- Removal `d.pop(k)` / `del d[k]` on a Python dict (the binding for `k`
disappears; callers check membership first). -/
def dictPop {α : Type} (k : String) : List (String × α) → List (String × α)
  | [] => []
  | (k', v') :: rest => if k' = k then rest else (k', v') :: dictPop k rest

/-- `Credential` dataclass (models.py): `name`, `username`, `password`
required; `notes : str | None` defaulting to the empty string; `tags :
list[str] | None` defaulting to `None`. -/
structure Credential where
  name : String
  username : String
  password : String
  notes : Option String
  tags : Option (List String)
deriving DecidableEq, Repr

/-- `Alias` dataclass (models.py): same shape as `Credential` with `command`
in place of `username`/`password`. -/
structure Alias where
  name : String
  command : String
  notes : Option String
  tags : Option (List String)
deriving DecidableEq, Repr

/-- `UpdateCredential` dataclass: inherits `Credential` and re-declares
`username` and `password` with default `None`, adds `new_name` with default
`None`. `notes` keeps the default `""` (the empty string, not `None`)
inherited from `Credential`; `tags` keeps default `None`. Field order is the
dataclass field order: name, username, password, notes, tags, new_name. -/
structure UpdateCredential where
  name : String
  username : Option String
  password : Option String
  notes : Option String
  tags : Option (List String)
  new_name : Option String
deriving DecidableEq, Repr

/-- `UpdateAlias` dataclass: inherits `Alias`, re-declares `command` with
default `None`, adds `new_name`; `notes` keeps the inherited default `""`. -/
structure UpdateAlias where
  name : String
  command : Option String
  notes : Option String
  tags : Option (List String)
  new_name : Option String
deriving DecidableEq, Repr

/-- The constructor call `UpdateCredential(name=x, username=u)` with every
other argument left unset: Python fills `password=None`, `notes=""` (the
inherited dataclass default), `tags=None`, `new_name=None`. -/
def mkUpdateCredUsername (x u : String) : UpdateCredential :=
  { name := x, username := some u, password := none,
    notes := some "", tags := none, new_name := none }

/-- The constructor call `UpdateCredential(name=x, new_name=y)` with every
other argument left unset (`username=None`, `password=None`, `notes=""`,
`tags=None`). -/
def mkUpdateCredRename (x y : String) : UpdateCredential :=
  { name := x, username := none, password := none,
    notes := some "", tags := none, new_name := some y }

/-- The constructor call `UpdateAlias(name=x, new_name=y)` with every other
argument left unset (`command=None`, `notes=""`, `tags=None`). -/
def mkUpdateAliasRename (x y : String) : UpdateAlias :=
  { name := x, command := none, notes := some "",
    tags := none, new_name := some y }

/-- `VaultData` dataclass: two ordered mappings, `credentials` then
`aliases` (dataclass field order, which is also the JSON key order). -/
structure VaultData where
  credentials : List (String × Credential)
  aliases : List (String × Alias)
deriving DecidableEq, Repr

/-- `VaultData()` with both mappings empty (the `__init__` default). -/
def emptyVaultData : VaultData := { credentials := [], aliases := [] }

/-- Serialization of `str | None` by `json.dumps`. -/
def serOptStr : Option String → Json
  | none => Json.null
  | some s => Json.str s

/-- Serialization of `list[str] | None` by `json.dumps`. -/
def serOptStrList : Option (List String) → Json
  | none => Json.null
  | some l => Json.arr (l.map Json.str)

/-- `asdict` of a `Credential` followed by `json.dumps`: an object carrying
the five dataclass fields in declaration order. -/
def serializeCredential (c : Credential) : Json :=
  Json.obj [("name", Json.str c.name), ("username", Json.str c.username),
            ("password", Json.str c.password), ("notes", serOptStr c.notes),
            ("tags", serOptStrList c.tags)]

/-- `asdict` of an `Alias` followed by `json.dumps`. -/
def serializeAlias (a : Alias) : Json :=
  Json.obj [("name", Json.str a.name), ("command", Json.str a.command),
            ("notes", serOptStr a.notes), ("tags", serOptStrList a.tags)]

/-- `VaultData.model_dump_json()` (models.py `BaseModel.model_dump_json`):
`json.dumps(asdict(self))`, an object with the `credentials` and `aliases`
mappings serialized entry by entry in insertion order. -/
def serializeVaultData (d : VaultData) : Json :=
  Json.obj [("credentials",
             Json.obj (d.credentials.map (fun e => (e.1, serializeCredential e.2)))),
            ("aliases",
             Json.obj (d.aliases.map (fun e => (e.1, serializeAlias e.2))))]

/-- Reading back a `str | None` field from parsed JSON. -/
def parseOptStr : Json → Option (Option String)
  | Json.null => some none
  | Json.str s => some (some s)
  | _ => none

/-- Reading back the elements of a serialized `list[str]`. -/
def parseStrList : List Json → Option (List String)
  | [] => some []
  | Json.str s :: rest =>
      match parseStrList rest with
      | some l => some (s :: l)
      | none => none
  | _ => none

/-- Reading back a `list[str] | None` field from parsed JSON. -/
def parseOptStrList : Json → Option (Option (List String))
  | Json.null => some none
  | Json.arr elems =>
      match parseStrList elems with
      | some l => some (some l)
      | none => none
  | _ => none

/-- `Credential(**cred)` applied to the dict parsed back from the serialized
form (vault.py `_decrypt_data`): the five fields in serialization order;
anything else raises and the decode fails. -/
def parseCredential : Json → Option Credential
  | Json.obj [("name", Json.str n), ("username", Json.str u),
              ("password", Json.str p), ("notes", jn), ("tags", jt)] =>
      match parseOptStr jn, parseOptStrList jt with
      | some notes, some tags =>
          some { name := n, username := u, password := p, notes := notes, tags := tags }
      | _, _ => none
  | _ => none

/-- `Alias(**alias)` applied to the dict parsed back from the serialized
form. -/
def parseAlias : Json → Option Alias
  | Json.obj [("name", Json.str n), ("command", Json.str c),
              ("notes", jn), ("tags", jt)] =>
      match parseOptStr jn, parseOptStrList jt with
      | some notes, some tags =>
          some { name := n, command := c, notes := notes, tags := tags }
      | _, _ => none
  | _ => none

/-- The dict comprehension rebuilding `credentials` in `_decrypt_data`:
`Credential(**cred)` for every entry, in order. -/
def parseCredEntries : List (String × Json) → Option (List (String × Credential))
  | [] => some []
  | (k, j) :: rest =>
      match parseCredential j, parseCredEntries rest with
      | some c, some cs => some ((k, c) :: cs)
      | _, _ => none

/-- The dict comprehension rebuilding `aliases` in `_decrypt_data`. -/
def parseAliasEntries : List (String × Json) → Option (List (String × Alias))
  | [] => some []
  | (k, j) :: rest =>
      match parseAlias j, parseAliasEntries rest with
      | some a, some as_ => some ((k, a) :: as_)
      | _, _ => none

/-- `VaultData(**json.loads(plaintext))` followed by the per-entry
reconstruction loop of `_decrypt_data`. -/
def parseVaultData : Json → Option VaultData
  | Json.obj [("credentials", Json.obj cs), ("aliases", Json.obj as_)] =>
      match parseCredEntries cs, parseAliasEntries as_ with
      | some creds, some aliases => some { credentials := creds, aliases := aliases }
      | _, _ => none
  | _ => none

/-- A PBKDF2-derived key (vault.py `_derive_key`): deterministic in the
password and the salt, and collision-free in the symbolic model (PBKDF2 with
SHA-256, 200000 iterations, 32-byte output). Salts and nonces are opaque
random draws, represented by their index in the entropy stream. -/
structure DerivedKey where
  password : String
  salt : Nat
deriving DecidableEq, Repr

/-- `_derive_key(password)` with the vault salt. -/
def deriveKey (password : String) (salt : Nat) : DerivedKey :=
  { password := password, salt := salt }

/-- Symbolic AES-GCM ciphertext-with-tag: records the key and nonce it was
produced under and the serialized plaintext. -/
structure Ciphertext where
  key : DerivedKey
  nonce : Nat
  plaintext : Json
deriving Repr

/-- `AESGCM(key).encrypt(nonce, plaintext, None)`. -/
def aesgcmEncrypt (key : DerivedKey) (nonce : Nat) (plaintext : Json) : Ciphertext :=
  { key := key, nonce := nonce, plaintext := plaintext }

/-- `AESGCM(key).decrypt(nonce, ciphertext, None)`: the authentication-tag
check succeeds exactly when key and nonce match the ones the ciphertext was
produced under; otherwise `InvalidTag` is raised (`none`). -/
def aesgcmDecrypt (key : DerivedKey) (nonce : Nat) (ct : Ciphertext) : Option Json :=
  if ct.key = key ∧ ct.nonce = nonce then some ct.plaintext else none

/-- On-disk vault envelope (config VAULT_FILE): `salt(16) || nonce(12) ||
ciphertext+tag`; the fixed-width prefix makes the concatenation invertible,
so it is modelled as a record. -/
structure Envelope where
  salt : Nat
  nonce : Nat
  ciphertext : Ciphertext
deriving Repr

/-- The three files the core touches: VAULT_FILE (envelope), KEY_CACHE_FILE
(raw cached key, `None` when absent), SESSION_FILE. -/
structure SessionTimestamp where
  iso : Option Int
deriving DecidableEq, Repr

/-- Content of SESSION_FILE as `is_session_active` sees it after
`read_secure_file`: either bytes on which `Session(**json.loads(...))`
raises (`invalid`), or a well-formed record with an `unlocked` flag and a
timestamp string. A timestamp of `SessionTimestamp none` is a string that
`datetime.fromisoformat` rejects; `SessionTimestamp (some t)` parses to the
absolute time `t` (in seconds). -/
inductive SessionContent where
  | invalid
  | record (unlocked : Bool) (timestamp : SessionTimestamp)
deriving DecidableEq, Repr

/-- The filesystem state visible to the core: the vault envelope, the cached
key and the session record, each possibly absent. -/
structure FS where
  vaultFile : Option Envelope
  keyFile : Option DerivedKey
  sessionFile : Option SessionContent
deriving Repr

/-- In-memory `Vault` object: `salt`, `nonce`, `encrypted_data` start as
`None`; `data` starts as an empty `VaultData`. -/
structure VaultObj where
  salt : Option Nat
  nonce : Option Nat
  encrypted_data : Option Ciphertext
  data : VaultData
deriving Repr

/-- `Vault()` as `__init__` builds it. -/
def initVault : VaultObj :=
  { salt := none, nonce := none, encrypted_data := none, data := emptyVaultData }

/-- A vault instance together with the filesystem it operates on. -/
structure VState where
  vault : VaultObj
  fs : FS
deriving Repr

/-- Python exceptions the embedded operations can raise. -/
inductive VaultErr where
  | conflict (name : String)
  | notFound (name : String)
  | invalidPassword
  | noKey
  | fileNotFound
  | typeError
deriving DecidableEq, Repr

/-- Replace the in-memory credentials mapping. -/
def setCreds (s : VState) (m : List (String × Credential)) : VState :=
  { s with vault := { s.vault with data := { s.vault.data with credentials := m } } }

/-- Replace the in-memory aliases mapping. -/
def setAliases (s : VState) (m : List (String × Alias)) : VState :=
  { s with vault := { s.vault with data := { s.vault.data with aliases := m } } }

/-- `_load_key()`: `read_secure_file(KEY_CACHE_FILE)`, `None` when absent. -/
def loadKey (s : VState) : Option DerivedKey := s.fs.keyFile

/-- The persistence tail every mutating operation ends with:
`key = self._load_key(); self._encrypt_data(key); self._store_vault_to_disk()`.
`AESGCM(None)` raises `TypeError` before anything is encrypted; encryption
with `self.nonce = None` likewise raises inside `encrypt`; storing with
`self.salt = None` raises in the `bytes` concatenation after
`encrypted_data` has already been replaced. On success the full envelope is
rewritten. -/
def persistTail (s : VState) : Option VaultErr × VState :=
  match loadKey s with
  | none => (some VaultErr.typeError, s)
  | some key =>
      match s.vault.nonce with
      | none => (some VaultErr.typeError, s)
      | some n =>
          let ct := aesgcmEncrypt key n (serializeVaultData s.vault.data)
          let s1 := { s with vault := { s.vault with encrypted_data := some ct } }
          match s.vault.salt with
          | none => (some VaultErr.typeError, s1)
          | some sa =>
              (none, { s1 with fs := { s1.fs with
                vaultFile := some { salt := sa, nonce := n, ciphertext := ct } } })

/-- `Vault.add_credential`: conflict check, in-place insertion, then the
persistence tail. -/
def addCredential (c : Credential) (s : VState) : Option VaultErr × VState :=
  if (dictGet c.name s.vault.data.credentials).isSome then
    (some (VaultErr.conflict c.name), s)
  else
    persistTail (setCreds s (dictSet c.name c s.vault.data.credentials))

/-- `Vault.get_credential`: the record, or `None` when absent. -/
def getCredential (name : String) (s : VState) : Option Credential :=
  dictGet name s.vault.data.credentials

/-- `Vault.delete_credential`: NotFound check, in-place removal, then the
persistence tail. -/
def deleteCredential (name : String) (s : VState) : Option VaultErr × VState :=
  if (dictGet name s.vault.data.credentials).isSome then
    persistTail (setCreds s (dictPop name s.vault.data.credentials))
  else
    (some (VaultErr.notFound name), s)

/-- The `setattr` loop of `update_credential`: iterates `model_dump()` in
dataclass field order (name, username, password, notes, tags, new_name) and
assigns every value that is not `None` onto the stored record. By the time
the loop runs, `new_name` has been reset to `None`, and `name` (never
`None`) is the final name. -/
def patchCredential (u : UpdateCredential) (c : Credential) : Credential :=
  let c := { c with name := u.name }
  let c := match u.username with | some v => { c with username := v } | none => c
  let c := match u.password with | some v => { c with password := v } | none => c
  let c := match u.notes with | some v => { c with notes := some v } | none => c
  match u.tags with | some v => { c with tags := some v } | none => c

/-- The `setattr` loop of `update_alias` (field order: name, command, notes,
tags, new_name). -/
def patchAlias (u : UpdateAlias) (a : Alias) : Alias :=
  let a := { a with name := u.name }
  let a := match u.command with | some v => { a with command := v } | none => a
  let a := match u.notes with | some v => { a with notes := some v } | none => a
  match u.tags with | some v => { a with tags := some v } | none => a

/-- `Vault.update_credential`: NotFound check on the current name; if
`new_name` is set, `credentials[new_name] = credentials.pop(name)` (silently
overwriting any record already stored under `new_name`) and the descriptor's
`name`/`new_name` are rewritten; then the `setattr` loop mutates the record
now stored under the final name; then the persistence tail. -/
def updateCredential (u : UpdateCredential) (s : VState) : Option VaultErr × VState :=
  match dictGet u.name s.vault.data.credentials with
  | none => (some (VaultErr.notFound u.name), s)
  | some r =>
      let (m1, u1) :=
        match u.new_name with
        | some nn => (dictSet nn r (dictPop u.name s.vault.data.credentials),
                      { u with name := nn, new_name := none })
        | none => (s.vault.data.credentials, u)
      match dictGet u1.name m1 with
      | none => (some (VaultErr.notFound u1.name), setCreds s m1)
      | some r2 => persistTail (setCreds s (dictSet u1.name (patchCredential u1 r2) m1))

/-- `Vault.add_alias`. -/
def addAlias (a : Alias) (s : VState) : Option VaultErr × VState :=
  if (dictGet a.name s.vault.data.aliases).isSome then
    (some (VaultErr.conflict a.name), s)
  else
    persistTail (setAliases s (dictSet a.name a s.vault.data.aliases))

/-- `Vault.get_alias`. -/
def getAlias (name : String) (s : VState) : Option Alias :=
  dictGet name s.vault.data.aliases

/-- `Vault.delete_alias`. -/
def deleteAlias (name : String) (s : VState) : Option VaultErr × VState :=
  if (dictGet name s.vault.data.aliases).isSome then
    persistTail (setAliases s (dictPop name s.vault.data.aliases))
  else
    (some (VaultErr.notFound name), s)

/-- `Vault.update_alias`, same shape as `updateCredential`. -/
def updateAlias (u : UpdateAlias) (s : VState) : Option VaultErr × VState :=
  match dictGet u.name s.vault.data.aliases with
  | none => (some (VaultErr.notFound u.name), s)
  | some r =>
      let (m1, u1) :=
        match u.new_name with
        | some nn => (dictSet nn r (dictPop u.name s.vault.data.aliases),
                      { u with name := nn, new_name := none })
        | none => (s.vault.data.aliases, u)
      match dictGet u1.name m1 with
      | none => (some (VaultErr.notFound u1.name), setAliases s m1)
      | some r2 => persistTail (setAliases s (dictSet u1.name (patchAlias u1 r2) m1))

/-- `_key_is_valid(key)`: attempts `AESGCM(key).decrypt(self.nonce,
self.encrypted_data, None)` under a bare `except Exception: return False`,
so a missing nonce or missing ciphertext also yields `False`. -/
def keyIsValid (key : DerivedKey) (s : VState) : Bool :=
  match s.vault.nonce, s.vault.encrypted_data with
  | some n, some ct => (aesgcmDecrypt key n ct).isSome
  | _, _ => false

/-- `Vault.lock()`: `delete_secure_file(KEY_CACHE_FILE)` and nothing else
(a no-op when the cached key is already absent). -/
def lock (s : VState) : VState :=
  { s with fs := { s.fs with keyFile := none } }

/-- `Vault.unlock(password)`: derives a candidate key from the loaded salt
(PBKDF2 with `salt=None` raises `TypeError`), validates it against the
loaded ciphertext, raises `ValueError` on failure, and caches the key via
`write_secure_file` on success. It never touches `self.data`. -/
def unlock (password : String) (s : VState) : Option VaultErr × VState :=
  match s.vault.salt with
  | none => (some VaultErr.typeError, s)
  | some sa =>
      let key := deriveKey password sa
      if keyIsValid key s then
        (none, { s with fs := { s.fs with keyFile := some key } })
      else
        (some VaultErr.invalidPassword, s)

/-- `Vault.create(password)`: generates a fresh salt and nonce (the two
`os.urandom` draws are the explicit parameters), derives the key, encrypts
`self.data` (empty on a fresh instance) and unconditionally rewrites the
envelope file. No existence check is performed and no error is raised. -/
def create (password : String) (saltR nonceR : Nat) (s : VState) : Option VaultErr × VState :=
  let v := { s.vault with salt := some saltR, nonce := some nonceR }
  let key := deriveKey password saltR
  let ct := aesgcmEncrypt key nonceR (serializeVaultData v.data)
  let v2 := { v with encrypted_data := some ct }
  (none, { vault := v2,
           fs := { s.fs with
             vaultFile := some { salt := saltR, nonce := nonceR, ciphertext := ct } } })

/-- `_decrypt_data(key)`: decrypt the loaded ciphertext and rebuild
`VaultData`; any decode failure raises. Returns the new `data` or an
error. -/
def decryptData (key : DerivedKey) (nonce : Nat) (ct : Ciphertext) : Option VaultData :=
  match aesgcmDecrypt key nonce ct with
  | none => none
  | some pt => parseVaultData pt

/-- `Vault.load(raise_no_key)`: reads the envelope (FileNotFoundError when
absent), splits it into salt, nonce and ciphertext, then decrypts with the
cached key if one exists; without a key it either raises `ValueError`
("Please unlock the vault first.") or stays sealed. -/
def load (raiseNoKey : Bool) (s : VState) : Option VaultErr × VState :=
  match s.fs.vaultFile with
  | none => (some VaultErr.fileNotFound, s)
  | some env =>
      let v1 := { s.vault with salt := some env.salt, nonce := some env.nonce,
                               encrypted_data := some env.ciphertext }
      let s1 := { s with vault := v1 }
      match s.fs.keyFile with
      | none => if raiseNoKey then (some VaultErr.noKey, s1) else (none, s1)
      | some key =>
          match decryptData key env.nonce env.ciphertext with
          | none => (some VaultErr.typeError, s1)
          | some d => (none, { s1 with vault := { v1 with data := d } })

/-- `SESSION_LIFESPAN` (config.py): `60 * 30` seconds. -/
def SESSION_LIFESPAN : Int := 60 * 30

/-- `is_session_active()` (session.py) at absolute time `now` (seconds):
returns `False` when the record is absent, when
`Session(**json.loads(...))` raises (caught by the bare `except`), or when
`unlocked` is falsy; then parses the timestamp with
`datetime.fromisoformat` OUTSIDE any try block (an unparseable timestamp
raises), and returns `False` when the elapsed seconds exceed
`SESSION_LIFESPAN`, `True` otherwise. -/
def isSessionActive (now : Int) (file : Option SessionContent) : Except Unit Bool :=
  match file with
  | none => Except.ok false
  | some SessionContent.invalid => Except.ok false
  | some (SessionContent.record unlocked ts) =>
      if !unlocked then Except.ok false
      else
        match ts.iso with
        | none => Except.error ()
        | some t =>
            if now - t > SESSION_LIFESPAN then Except.ok false
            else Except.ok true

/-- `create_session()` at absolute time `now`: writes a record with
`unlocked=True` and the current timestamp. -/
def createSession (now : Int) (fs : FS) : FS :=
  { fs with sessionFile := some (SessionContent.record true { iso := some now }) }

/-- `end_session()`: deletes the session record. -/
def endSession (fs : FS) : FS :=
  { fs with sessionFile := none }

/-- Keys of an association list are pairwise distinct: the invariant every
Python dict satisfies by construction. -/
def keysNodup {α : Type} (m : List (String × α)) : Prop :=
  (m.map Prod.fst).Nodup


theorem dictGet_dictSet_self {α : Type} (k : String) (v : α) (m : List (String × α)) :
    dictGet k (dictSet k v m) = some v := by
  induction m with
  | nil => simp [dictGet, dictSet]
  | cons hd tl ih =>
      obtain ⟨k', v'⟩ := hd
      by_cases h : k' = k
      · simp [dictGet, dictSet, h]
      · simp [dictGet, dictSet, h, ih]

theorem dictGet_dictSet_ne {α : Type} {k k' : String} (hk : k' ≠ k) (v : α)
    (m : List (String × α)) : dictGet k' (dictSet k v m) = dictGet k' m := by
  induction m with
  | nil => simp [dictGet, dictSet, Ne.symm hk]
  | cons hd tl ih =>
      obtain ⟨k'', v'⟩ := hd
      by_cases h : k'' = k
      · subst h
        simp [dictGet, dictSet, Ne.symm hk]
      · simp [dictGet, dictSet, h, ih]

theorem dictGet_eq_none_of_not_mem {α : Type} {k : String} {m : List (String × α)}
    (h : k ∉ m.map Prod.fst) : dictGet k m = none := by
  induction m with
  | nil => rfl
  | cons hd tl ih =>
      obtain ⟨k', v'⟩ := hd
      simp only [List.map_cons, List.mem_cons] at h
      push_neg at h
      have hne : k' ≠ k := fun he => h.1 he.symm
      simp [dictGet, hne, ih h.2]

theorem dictGet_dictPop_self {α : Type} {m : List (String × α)} (k : String)
    (h : keysNodup m) : dictGet k (dictPop k m) = none := by
  induction m with
  | nil => rfl
  | cons hd tl ih =>
      obtain ⟨k', v'⟩ := hd
      simp only [keysNodup, List.map_cons, List.nodup_cons] at h
      by_cases hk : k' = k
      · subst hk
        simp only [dictPop, if_pos rfl]
        exact dictGet_eq_none_of_not_mem h.1
      · simp only [dictPop, if_neg hk, dictGet, if_neg hk]
        exact ih h.2

theorem dictGet_dictPop_ne {α : Type} {k k' : String} (hk : k' ≠ k)
    (m : List (String × α)) : dictGet k' (dictPop k m) = dictGet k' m := by
  induction m with
  | nil => simp [dictGet, dictPop]
  | cons hd tl ih =>
      obtain ⟨k'', v'⟩ := hd
      by_cases h : k'' = k
      · subst h
        simp [dictGet, dictPop, Ne.symm hk]
      · simp [dictGet, dictPop, h, ih]

theorem parseOptStr_ser (o : Option String) : parseOptStr (serOptStr o) = some o := by
  cases o <;> rfl

theorem parseStrList_map (l : List String) :
    parseStrList (l.map Json.str) = some l := by
  induction l with
  | nil => rfl
  | cons hd tl ih => simp [parseStrList, ih]

theorem parseOptStrList_ser (o : Option (List String)) :
    parseOptStrList (serOptStrList o) = some o := by
  cases o with
  | none => rfl
  | some l => simp [serOptStrList, parseOptStrList, parseStrList_map]

theorem parseCredential_ser (c : Credential) :
    parseCredential (serializeCredential c) = some c := by
  simp [serializeCredential, parseCredential, parseOptStr_ser, parseOptStrList_ser]

theorem parseAlias_ser (a : Alias) :
    parseAlias (serializeAlias a) = some a := by
  simp [serializeAlias, parseAlias, parseOptStr_ser, parseOptStrList_ser]

theorem parseCredEntries_map (l : List (String × Credential)) :
    parseCredEntries (l.map (fun e => (e.1, serializeCredential e.2))) = some l := by
  induction l with
  | nil => rfl
  | cons hd tl ih => simp [parseCredEntries, parseCredential_ser, ih]

theorem parseAliasEntries_map (l : List (String × Alias)) :
    parseAliasEntries (l.map (fun e => (e.1, serializeAlias e.2))) = some l := by
  induction l with
  | nil => rfl
  | cons hd tl ih => simp [parseAliasEntries, parseAlias_ser, ih]

theorem parseVaultData_ser (d : VaultData) :
    parseVaultData (serializeVaultData d) = some d := by
  simp [serializeVaultData, parseVaultData, parseCredEntries_map, parseAliasEntries_map]

theorem persistTail_noKey (s : VState) (h : s.fs.keyFile = none) :
    persistTail s = (some VaultErr.typeError, s) := by
  simp [persistTail, loadKey, h]

theorem persistTail_unlocked (s : VState) (key : DerivedKey) (n sa : Nat)
    (hkey : s.fs.keyFile = some key) (hn : s.vault.nonce = some n)
    (hsalt : s.vault.salt = some sa) :
    persistTail s =
      (none,
       { vault := { s.vault with
                    encrypted_data := some (aesgcmEncrypt key n (serializeVaultData s.vault.data)) },
         fs := { s.fs with
                 vaultFile := some { salt := sa, nonce := n,
                                     ciphertext := aesgcmEncrypt key n (serializeVaultData s.vault.data) } } }) := by
  simp [persistTail, loadKey, hkey, hn, hsalt]

theorem keys_dictSet {α : Type} (k : String) (v : α) (m : List (String × α)) :
    (dictSet k v m).map Prod.fst =
      if k ∈ m.map Prod.fst then m.map Prod.fst else m.map Prod.fst ++ [k] := by
  induction m with
  | nil => simp [dictSet]
  | cons hd tl ih =>
      obtain ⟨k', v'⟩ := hd
      by_cases hk : k' = k
      · subst hk
        simp [dictSet]
      · by_cases hm : k ∈ tl.map Prod.fst
        · simp [dictSet, hk, ih, hm, Ne.symm hk]
        · simp [dictSet, hk, ih, hm, Ne.symm hk]

theorem keysNodup_dictSet {α : Type} (k : String) (v : α) (m : List (String × α))
    (h : keysNodup m) : keysNodup (dictSet k v m) := by
  unfold keysNodup at h ⊢
  rw [keys_dictSet]
  by_cases hm : k ∈ m.map Prod.fst
  · simpa [hm]
  · simp [hm, List.nodup_append, h]

/-- Entropy stream index 0 stands for the salt drawn at creation, 7 for the
nonce; the concrete password is the one from the spec's end-to-end
scenario. -/
def demoKey : DerivedKey := deriveKey "password123" 0

/-- Ciphertext of an empty vault under `demoKey` and nonce 7, as `create`
with the scenario password produces it. -/
def demoCiphertext : Ciphertext :=
  aesgcmEncrypt demoKey 7 (serializeVaultData emptyVaultData)

/-- Envelope holding `demoCiphertext`. -/
def demoEnvelope : Envelope := { salt := 0, nonce := 7, ciphertext := demoCiphertext }

/-- Credential from the spec's end-to-end scenario. -/
def demoCred : Credential :=
  { name := "test", username := "user", password := "pass", notes := some "", tags := none }

/-- A second credential with the same name and different content. -/
def demoCred2 : Credential :=
  { name := "test", username := "other", password := "p2", notes := some "", tags := none }

/-- An alias record. -/
def demoAlias : Alias :=
  { name := "gs", command := "git status", notes := some "", tags := none }

/-- Empty vault, loaded and unlocked (cached key present). -/
def demoUnlocked : VState :=
  { vault := { salt := some 0, nonce := some 7, encrypted_data := some demoCiphertext,
               data := emptyVaultData },
    fs := { vaultFile := some demoEnvelope, keyFile := some demoKey, sessionFile := none } }

/-- Empty vault, loaded but sealed (no cached key). -/
def demoSealed : VState :=
  { vault := { salt := some 0, nonce := some 7, encrypted_data := some demoCiphertext,
               data := emptyVaultData },
    fs := { vaultFile := some demoEnvelope, keyFile := none, sessionFile := none } }

/-- Claim C5: for every password, salt, nonce and VaultData document,
decrypting — with the key derived from the same password and salt — the
ciphertext obtained by encrypting the serialized document under that key and
nonce reproduces the document exactly (serialize/encrypt then
decrypt/deserialize is the identity on VaultData). -/
theorem C5_encrypt_decrypt_roundtrip (password : String) (salt nonce : Nat) (d : VaultData) :
    decryptData (deriveKey password salt) nonce
      (aesgcmEncrypt (deriveKey password salt) nonce (serializeVaultData d)) = some d := by
  simp [decryptData, aesgcmDecrypt, aesgcmEncrypt, parseVaultData_ser]

/-- Claim C8: `lock()` deletes only the cached key file: for every vault
state, the in-memory VaultData, salt, nonce and ciphertext are identical
after `lock()`, the persisted envelope file and the session file are
unaltered, and the cached key file is gone. -/
theorem C8_lock_frame (s : VState) :
    (lock s).vault = s.vault ∧ (lock s).fs.vaultFile = s.fs.vaultFile ∧
    (lock s).fs.sessionFile = s.fs.sessionFile ∧ (lock s).fs.keyFile = none := by
  simp [lock]

/-- Claim C10: `create(P)` on a fresh Vault instance always succeeds, raises
no error, performs no existence check, and unconditionally overwrites
whatever envelope was persisted before with a new envelope encrypting an
empty VaultData under the freshly drawn salt and nonce (the result does not
depend on the prior content of the vault file). -/
theorem C10_create_overwrites (password : String) (saltR nonceR : Nat) (fs0 : FS) :
    (create password saltR nonceR { vault := initVault, fs := fs0 }).1 = none ∧
    (create password saltR nonceR { vault := initVault, fs := fs0 }).2.fs.vaultFile =
      some { salt := saltR, nonce := nonceR,
             ciphertext := aesgcmEncrypt (deriveKey password saltR) nonceR
               (serializeVaultData emptyVaultData) } ∧
    (create password saltR nonceR { vault := initVault, fs := fs0 }).2.fs.keyFile =
      fs0.keyFile ∧
    (create password saltR nonceR { vault := initVault, fs := fs0 }).2.fs.sessionFile =
      fs0.sessionFile := by
  simp [create, initVault]

/-- Claim C1 (evaluation of the defect): on an unlocked vault whose loaded
nonce is `n`, a successful `add_credential` re-encrypts and rewrites the
envelope under exactly that same nonce `n` — `_encrypt_data` reuses
`self.nonce`, so the nonce is NOT freshly generated and the same key is
paired with the same nonce for the new plaintext. -/
theorem C1_add_reuses_nonce (s : VState) (key : DerivedKey) (n sa : Nat) (c : Credential)
    (hkey : s.fs.keyFile = some key) (hn : s.vault.nonce = some n)
    (hsalt : s.vault.salt = some sa)
    (habs : dictGet c.name s.vault.data.credentials = none) :
    (addCredential c s).1 = none ∧
    ((addCredential c s).2.fs.vaultFile).map Envelope.nonce = some n ∧
    ((addCredential c s).2.vault.encrypted_data).map Ciphertext.nonce = s.vault.nonce ∧
    ((addCredential c s).2.vault.encrypted_data).map Ciphertext.key = some key := by
  simp [addCredential, habs, persistTail, loadKey, setCreds, hkey, hn, hsalt, aesgcmEncrypt]

/-- Claim C1 witness: the concrete unlocked empty vault with loaded nonce 7;
adding the scenario credential rewrites the envelope under nonce 7 again. -/
theorem C1_add_reuses_nonce_witness :
    (addCredential demoCred demoUnlocked).1 = none ∧
    ((addCredential demoCred demoUnlocked).2.fs.vaultFile).map Envelope.nonce = some 7 ∧
    ((addCredential demoCred demoUnlocked).2.vault.encrypted_data).map Ciphertext.nonce =
      demoUnlocked.vault.nonce ∧
    ((addCredential demoCred demoUnlocked).2.vault.encrypted_data).map Ciphertext.key =
      some demoKey :=
  C1_add_reuses_nonce demoUnlocked demoKey 7 0 demoCred rfl rfl rfl rfl

theorem persistTail_preserves (s : VState) :
    (persistTail s).2.vault.data = s.vault.data ∧
    (persistTail s).2.fs.keyFile = s.fs.keyFile ∧
    (persistTail s).2.vault.nonce = s.vault.nonce ∧
    (persistTail s).2.vault.salt = s.vault.salt := by
  rcases hk : s.fs.keyFile with _ | key <;>
    rcases hn : s.vault.nonce with _ | n <;>
      rcases hs : s.vault.salt with _ | sa <;>
        simp [persistTail, loadKey, hk, hn, hs]

theorem persistTail_fst_none (s : VState) (key : DerivedKey) (n sa : Nat)
    (hkey : s.fs.keyFile = some key) (hn : s.vault.nonce = some n)
    (hsalt : s.vault.salt = some sa) : (persistTail s).1 = none := by
  simp [persistTail, loadKey, hkey, hn, hsalt]

/-- Claim C2 counterexample: `add_credential` invoked on the sealed vault
(no cached key) raises an error, but the in-memory credentials mapping is
NOT identical before and after the failed call — the record was inserted
before `_load_key` returned `None` and `AESGCM(None)` raised. -/
theorem C2_counterexample :
    (addCredential demoCred demoSealed).1.isSome = true ∧
    demoSealed.vault.data.credentials = [] ∧
    (addCredential demoCred demoSealed).2.vault.data.credentials = [("test", demoCred)] :=
  ⟨rfl, rfl, rfl⟩

/-- Claim C2 (amended): every CRUD mutating operation invoked without a
cached key fails with an error and leaves the filesystem — in particular
the persisted envelope — unchanged; the in-memory mapping, however, may
already have been mutated when the error surfaces (see the
counterexample). -/
theorem C2_sealed_no_disk_write (s : VState) (c : Credential) (a : Alias)
    (u : UpdateCredential) (ua : UpdateAlias) (x y : String)
    (hkey : s.fs.keyFile = none) :
    ((addCredential c s).1.isSome = true ∧ (addCredential c s).2.fs = s.fs) ∧
    ((deleteCredential x s).1.isSome = true ∧ (deleteCredential x s).2.fs = s.fs) ∧
    ((updateCredential u s).1.isSome = true ∧ (updateCredential u s).2.fs = s.fs) ∧
    ((addAlias a s).1.isSome = true ∧ (addAlias a s).2.fs = s.fs) ∧
    ((deleteAlias y s).1.isSome = true ∧ (deleteAlias y s).2.fs = s.fs) ∧
    ((updateAlias ua s).1.isSome = true ∧ (updateAlias ua s).2.fs = s.fs) := by
  have hpk : ∀ v : VaultObj, persistTail { vault := v, fs := s.fs } =
      (some VaultErr.typeError, { vault := v, fs := s.fs }) :=
    fun v => persistTail_noKey { vault := v, fs := s.fs } hkey
  refine ⟨?_, ?_, ?_, ?_, ?_, ?_⟩
  · by_cases hmem : (dictGet c.name s.vault.data.credentials).isSome <;>
      simp [addCredential, hmem, hpk, setCreds]
  · by_cases hmem : (dictGet x s.vault.data.credentials).isSome <;>
      simp [deleteCredential, hmem, hpk, setCreds]
  · rcases hmc : dictGet u.name s.vault.data.credentials with _ | r
    · simp [updateCredential, hmc]
    · rcases hnn : u.new_name with _ | nn
      · simp [updateCredential, hmc, hnn, hpk, setCreds]
      · simp [updateCredential, hmc, hnn, dictGet_dictSet_self, hpk, setCreds]
  · by_cases hmem : (dictGet a.name s.vault.data.aliases).isSome <;>
      simp [addAlias, hmem, hpk, setAliases]
  · by_cases hmem : (dictGet y s.vault.data.aliases).isSome <;>
      simp [deleteAlias, hmem, hpk, setAliases]
  · rcases hma : dictGet ua.name s.vault.data.aliases with _ | r
    · simp [updateAlias, hma]
    · rcases hnn : ua.new_name with _ | nn
      · simp [updateAlias, hma, hnn, hpk, setAliases]
      · simp [updateAlias, hma, hnn, dictGet_dictSet_self, hpk, setAliases]

/-- Claim C2 witness: the sealed demo vault with the scenario credential,
an alias and update descriptors. -/
theorem C2_sealed_witness :
    ((addCredential demoCred demoSealed).1.isSome = true ∧
      (addCredential demoCred demoSealed).2.fs = demoSealed.fs) ∧
    ((deleteCredential "x" demoSealed).1.isSome = true ∧
      (deleteCredential "x" demoSealed).2.fs = demoSealed.fs) ∧
    ((updateCredential (mkUpdateCredUsername "x" "u") demoSealed).1.isSome = true ∧
      (updateCredential (mkUpdateCredUsername "x" "u") demoSealed).2.fs = demoSealed.fs) ∧
    ((addAlias demoAlias demoSealed).1.isSome = true ∧
      (addAlias demoAlias demoSealed).2.fs = demoSealed.fs) ∧
    ((deleteAlias "y" demoSealed).1.isSome = true ∧
      (deleteAlias "y" demoSealed).2.fs = demoSealed.fs) ∧
    ((updateAlias (mkUpdateAliasRename "x" "y") demoSealed).1.isSome = true ∧
      (updateAlias (mkUpdateAliasRename "x" "y") demoSealed).2.fs = demoSealed.fs) :=
  C2_sealed_no_disk_write demoSealed demoCred demoAlias
    (mkUpdateCredUsername "x" "u") (mkUpdateAliasRename "x" "y") "x" "y" rfl

/-- Credential whose `notes` field is non-empty and whose `tags` are set. -/
def demoCredNotes : Credential :=
  { name := "mail", username := "user", password := "pass",
    notes := some "keep", tags := some ["work"] }

/-- Unlocked vault holding `demoCredNotes`. -/
def demoVaultNotes : VState :=
  { vault := { salt := some 0, nonce := some 7, encrypted_data := some demoCiphertext,
               data := { credentials := [("mail", demoCredNotes)], aliases := [] } },
    fs := { vaultFile := some demoEnvelope, keyFile := some demoKey, sessionFile := none } }

/-- Claim C3 counterexample: updating only the username of a credential
whose stored notes are "keep" clobbers the notes to the empty string — the
descriptor's `notes` field inherits the dataclass default `""` rather than
`None`, and the update loop applies every non-`None` value. -/
theorem C3_counterexample :
    (getCredential "mail" demoVaultNotes).map Credential.notes = some (some "keep") ∧
    (getCredential "mail"
        (updateCredential (mkUpdateCredUsername "mail" "new") demoVaultNotes).2).map
      Credential.notes = some (some "") :=
  ⟨rfl, rfl⟩

/-- Claim C3 (amended): on an unlocked vault, `update_credential` with a
descriptor that sets only `name=X` and `username` succeeds and leaves
`password` and `tags` identical to before, but it also resets `notes` to
the empty string (the descriptor's inherited default), so `notes` is
preserved only when it was already empty. -/
theorem C3_update_username (s : VState) (key : DerivedKey) (n sa : Nat)
    (x u : String) (c : Credential)
    (hkey : s.fs.keyFile = some key) (hn : s.vault.nonce = some n)
    (hsalt : s.vault.salt = some sa)
    (hc : dictGet x s.vault.data.credentials = some c) :
    (updateCredential (mkUpdateCredUsername x u) s).1 = none ∧
    getCredential x (updateCredential (mkUpdateCredUsername x u) s).2 =
      some { name := x, username := u, password := c.password,
             notes := some "", tags := c.tags } := by
  have heq : updateCredential (mkUpdateCredUsername x u) s =
      persistTail (setCreds s (dictSet x (patchCredential (mkUpdateCredUsername x u) c)
        s.vault.data.credentials)) := by
    simp [updateCredential, mkUpdateCredUsername, hc]
  refine ⟨?_, ?_⟩
  · rw [heq]
    exact persistTail_fst_none _ key n sa hkey hn hsalt
  · rw [getCredential, heq, (persistTail_preserves _).1]
    simp [setCreds, dictGet_dictSet_self, patchCredential, mkUpdateCredUsername]

/-- Claim C3 witness: the unlocked vault holding the "mail" credential with
non-empty notes. -/
theorem C3_update_username_witness :
    (updateCredential (mkUpdateCredUsername "mail" "new") demoVaultNotes).1 = none ∧
    getCredential "mail" (updateCredential (mkUpdateCredUsername "mail" "new") demoVaultNotes).2 =
      some { name := "mail", username := "new", password := "pass",
             notes := some "", tags := some ["work"] } :=
  C3_update_username demoVaultNotes demoKey 7 0 "mail" "new" demoCredNotes rfl rfl rfl rfl

/-- Claim C6: unlocking with any password different from the one the
loaded ciphertext was created under fails the authentication-tag check,
raises the invalid-password error, caches no key and changes no part of
the state (no corrupted decode can occur, since `unlock` never decodes). -/
theorem C6_wrong_password_no_change (s : VState) (p p2 : String) (sa n : Nat) (pt : Json)
    (hsalt : s.vault.salt = some sa) (hn : s.vault.nonce = some n)
    (hct : s.vault.encrypted_data = some (aesgcmEncrypt (deriveKey p sa) n pt))
    (hne : p2 ≠ p) :
    unlock p2 s = (some VaultErr.invalidPassword, s) := by
  have hk : keyIsValid (deriveKey p2 sa) s = false := by
    simp [keyIsValid, hn, hct, aesgcmDecrypt, aesgcmEncrypt, deriveKey,
          DerivedKey.mk.injEq, Ne.symm hne]
  simp [unlock, hsalt, hk]

/-- Claim C6 witness: the sealed demo vault was created with password
"password123"; unlocking with "wrong" fails and returns the state
unchanged. -/
theorem C6_wrong_password_witness :
    unlock "wrong" demoSealed = (some VaultErr.invalidPassword, demoSealed) :=
  C6_wrong_password_no_change demoSealed "password123" "wrong" 0 7
    (serializeVaultData emptyVaultData) rfl rfl rfl (by decide)

/-- Claim C4 counterexample: with a well-formed unlocked session whose
elapsed time equals SESSION_LIFESPAN exactly (not strictly less than it),
`is_session_active` returns true — the code tests `elapsed > lifespan`, the
claim demands `elapsed < lifespan`. -/
theorem C4_counterexample :
    isSessionActive 1800 (some (SessionContent.record true { iso := some 0 })) =
      Except.ok true ∧
    ¬((1800 : Int) - 0 < SESSION_LIFESPAN) :=
  ⟨rfl, by decide⟩

/-- Claim C4 (amended): `is_session_active` returns true iff the record is
present, well-formed, `unlocked` is true and the elapsed time is at most
(not strictly less than) SESSION_LIFESPAN; it returns false when the record
is absent, when reconstructing the Session raises, or when `unlocked` is
false — but a well-formed unlocked record whose timestamp string
`datetime.fromisoformat` cannot parse raises an error instead of returning
false, because that call sits outside the try block. -/
theorem C4_session_active_charac (now : Int) (file : Option SessionContent) :
    (isSessionActive now file = Except.ok true ↔
      (∃ t : Int, file = some (SessionContent.record true { iso := some t }) ∧
        now - t ≤ SESSION_LIFESPAN)) ∧
    (isSessionActive now file = Except.error () ↔
      file = some (SessionContent.record true { iso := none })) := by
  rcases file with _ | content
  · simp [isSessionActive]
  · rcases content with _ | ⟨unlocked, ts⟩
    · simp [isSessionActive]
    · rcases ts with ⟨iso⟩
      rcases unlocked with _ | _
      · simp [isSessionActive]
      · rcases iso with _ | t
        · simp [isSessionActive]
        · by_cases h : now - t > SESSION_LIFESPAN
          · simp [isSessionActive, h]
            omega
          · simp [isSessionActive, h]
            omega

theorem addCredential_absent_state (c : Credential) (s : VState)
    (habs : dictGet c.name s.vault.data.credentials = none) :
    addCredential c s =
      persistTail (setCreds s (dictSet c.name c s.vault.data.credentials)) := by
  simp [addCredential, habs]

theorem addCredential_conflict (c : Credential) (s : VState) (r : Credential)
    (h : dictGet c.name s.vault.data.credentials = some r) :
    (addCredential c s).1 = some (VaultErr.conflict c.name) := by
  simp [addCredential, h]

theorem addCredential_absent_fst (c : Credential) (s : VState) (key : DerivedKey)
    (n sa : Nat) (habs : dictGet c.name s.vault.data.credentials = none)
    (hkey : s.fs.keyFile = some key) (hn : s.vault.nonce = some n)
    (hsalt : s.vault.salt = some sa) : (addCredential c s).1 = none := by
  rw [addCredential_absent_state c s habs]
  exact persistTail_fst_none _ key n sa hkey hn hsalt

theorem deleteCredential_found_state (x : String) (s : VState) (r : Credential)
    (h : dictGet x s.vault.data.credentials = some r) :
    deleteCredential x s =
      persistTail (setCreds s (dictPop x s.vault.data.credentials)) := by
  simp [deleteCredential, h]

theorem deleteCredential_found_fst (x : String) (s : VState) (r : Credential)
    (key : DerivedKey) (n sa : Nat) (h : dictGet x s.vault.data.credentials = some r)
    (hkey : s.fs.keyFile = some key) (hn : s.vault.nonce = some n)
    (hsalt : s.vault.salt = some sa) : (deleteCredential x s).1 = none := by
  rw [deleteCredential_found_state x s r h]
  exact persistTail_fst_none _ key n sa hkey hn hsalt

/-- Claim C7: on an unlocked vault with a new name, add_credential succeeds;
a second add with the same name then always fails with the Conflict error;
deleting that name succeeds, after which adding it again succeeds; and
delete_credential fails with the NotFound error exactly when the name is
absent. -/
theorem C7_name_uniqueness (s : VState) (c c2 c3 : Credential) (x : String)
    (key : DerivedKey) (n sa : Nat)
    (hkey : s.fs.keyFile = some key) (hn : s.vault.nonce = some n)
    (hsalt : s.vault.salt = some sa)
    (hnd : keysNodup s.vault.data.credentials)
    (habs : dictGet c.name s.vault.data.credentials = none)
    (h2 : c2.name = c.name) (h3 : c3.name = c.name) :
    (addCredential c s).1 = none ∧
    (addCredential c2 (addCredential c s).2).1 = some (VaultErr.conflict c2.name) ∧
    (deleteCredential c.name (addCredential c s).2).1 = none ∧
    (addCredential c3 (deleteCredential c.name (addCredential c s).2).2).1 = none ∧
    ((deleteCredential x s).1 = some (VaultErr.notFound x) ↔
      dictGet x s.vault.data.credentials = none) := by
  have e1 := addCredential_absent_state c s habs
  have hs1creds : (addCredential c s).2.vault.data.credentials =
      dictSet c.name c s.vault.data.credentials := by
    rw [e1, (persistTail_preserves _).1]
    simp [setCreds]
  have hs1key : (addCredential c s).2.fs.keyFile = some key := by
    rw [e1, (persistTail_preserves _).2.1]
    exact hkey
  have hs1n : (addCredential c s).2.vault.nonce = some n := by
    rw [e1, (persistTail_preserves _).2.2.1]
    exact hn
  have hs1sa : (addCredential c s).2.vault.salt = some sa := by
    rw [e1, (persistTail_preserves _).2.2.2]
    exact hsalt
  have hget2 : dictGet c2.name (addCredential c s).2.vault.data.credentials = some c := by
    rw [hs1creds, h2]
    exact dictGet_dictSet_self c.name c s.vault.data.credentials
  have hget3 : dictGet c.name (addCredential c s).2.vault.data.credentials = some c := by
    rw [hs1creds]
    exact dictGet_dictSet_self c.name c s.vault.data.credentials
  have e2 := deleteCredential_found_state c.name (addCredential c s).2 c hget3
  have hs2creds : (deleteCredential c.name (addCredential c s).2).2.vault.data.credentials =
      dictPop c.name (dictSet c.name c s.vault.data.credentials) := by
    rw [e2, (persistTail_preserves _).1]
    simp [setCreds, hs1creds]
  have hs2key : (deleteCredential c.name (addCredential c s).2).2.fs.keyFile = some key := by
    rw [e2, (persistTail_preserves _).2.1]
    exact hs1key
  have hs2n : (deleteCredential c.name (addCredential c s).2).2.vault.nonce = some n := by
    rw [e2, (persistTail_preserves _).2.2.1]
    exact hs1n
  have hs2sa : (deleteCredential c.name (addCredential c s).2).2.vault.salt = some sa := by
    rw [e2, (persistTail_preserves _).2.2.2]
    exact hs1sa
  have habs3 : dictGet c3.name
      (deleteCredential c.name (addCredential c s).2).2.vault.data.credentials = none := by
    rw [hs2creds, h3]
    exact dictGet_dictPop_self c.name (keysNodup_dictSet c.name c s.vault.data.credentials hnd)
  refine ⟨?_, ?_, ?_, ?_, ?_⟩
  · exact addCredential_absent_fst c s key n sa habs hkey hn hsalt
  · exact addCredential_conflict c2 (addCredential c s).2 c hget2
  · exact deleteCredential_found_fst c.name (addCredential c s).2 c key n sa hget3
      hs1key hs1n hs1sa
  · exact addCredential_absent_fst c3 (deleteCredential c.name (addCredential c s).2).2
      key n sa habs3 hs2key hs2n hs2sa
  · rcases hx : dictGet x s.vault.data.credentials with _ | r
    · simp [deleteCredential, hx]
    · have hdel := deleteCredential_found_fst x s r key n sa hx hkey hn hsalt
      simp [hdel, hx]

/-- Claim C7 witness: the unlocked empty demo vault with the scenario
credential "test", a conflicting second credential and the absent name
"absent". -/
theorem C7_name_uniqueness_witness :
    (addCredential demoCred demoUnlocked).1 = none ∧
    (addCredential demoCred2 (addCredential demoCred demoUnlocked).2).1 =
      some (VaultErr.conflict demoCred2.name) ∧
    (deleteCredential demoCred.name (addCredential demoCred demoUnlocked).2).1 = none ∧
    (addCredential demoCred
      (deleteCredential demoCred.name (addCredential demoCred demoUnlocked).2).2).1 = none ∧
    ((deleteCredential "absent" demoUnlocked).1 = some (VaultErr.notFound "absent") ↔
      dictGet "absent" demoUnlocked.vault.data.credentials = none) :=
  C7_name_uniqueness demoUnlocked demoCred demoCred2 demoCred "absent" demoKey 7 0
    rfl rfl rfl (by simp [keysNodup, demoUnlocked, emptyVaultData]) rfl rfl rfl

theorem updateCredential_rename_state (x y : String) (s : VState) (r : Credential)
    (hx : dictGet x s.vault.data.credentials = some r) :
    updateCredential (mkUpdateCredRename x y) s =
      persistTail (setCreds s (dictSet y
        (patchCredential { name := y, username := none, password := none,
                           notes := some "", tags := none, new_name := none } r)
        (dictSet y r (dictPop x s.vault.data.credentials)))) := by
  simp [updateCredential, mkUpdateCredRename, hx, dictGet_dictSet_self]

theorem updateAlias_rename_state (x y : String) (s : VState) (r : Alias)
    (hx : dictGet x s.vault.data.aliases = some r) :
    updateAlias (mkUpdateAliasRename x y) s =
      persistTail (setAliases s (dictSet y
        (patchAlias { name := y, command := none, notes := some "",
                      tags := none, new_name := none } r)
        (dictSet y r (dictPop x s.vault.data.aliases)))) := by
  simp [updateAlias, mkUpdateAliasRename, hx, dictGet_dictSet_self]

theorem persistTail_aliases (s : VState) :
    (persistTail s).2.vault.data.aliases = s.vault.data.aliases := by
  rw [(persistTail_preserves s).1]

/-- Credential stored under key "a" in the two-record demo vault. -/
def demoCredA : Credential :=
  { name := "a", username := "ua", password := "pa", notes := some "na", tags := none }

/-- Credential stored under key "b". -/
def demoCredB : Credential :=
  { name := "b", username := "ub", password := "pb", notes := some "nb", tags := none }

/-- Alias stored under key "a". -/
def demoAliasA : Alias := { name := "a", command := "ca", notes := some "", tags := none }

/-- Alias stored under key "b". -/
def demoAliasB : Alias := { name := "b", command := "cb", notes := some "", tags := none }

/-- Unlocked vault holding credentials "a" and "b" and aliases "a" and
"b". -/
def demoVaultTwo : VState :=
  { vault := { salt := some 0, nonce := some 7, encrypted_data := some demoCiphertext,
               data := { credentials := [("a", demoCredA), ("b", demoCredB)],
                         aliases := [("a", demoAliasA), ("b", demoAliasB)] } },
    fs := { vaultFile := some demoEnvelope, keyFile := some demoKey, sessionFile := none } }

/-- Claim C9: on an unlocked vault containing distinct records X and Y,
`update_credential` with descriptor `{name: X, new_name: Y}` succeeds with
no Conflict error: the binding at Y is silently replaced by the record
formerly stored at X (renamed to Y, with `notes` reset to the descriptor's
inherited empty-string default), X is gone, and the prior Y record is lost;
`update_alias` behaves identically on the alias mapping. -/
theorem C9_rename_overwrites (s : VState) (x y : String) (cx : Credential) (ar : Alias)
    (key : DerivedKey) (n sa : Nat)
    (hkey : s.fs.keyFile = some key) (hn : s.vault.nonce = some n)
    (hsalt : s.vault.salt = some sa)
    (hndc : keysNodup s.vault.data.credentials) (hnda : keysNodup s.vault.data.aliases)
    (hxy : x ≠ y)
    (hcx : dictGet x s.vault.data.credentials = some cx)
    (hcy : (dictGet y s.vault.data.credentials).isSome = true)
    (hax : dictGet x s.vault.data.aliases = some ar)
    (hay : (dictGet y s.vault.data.aliases).isSome = true) :
    (updateCredential (mkUpdateCredRename x y) s).1 = none ∧
    getCredential y (updateCredential (mkUpdateCredRename x y) s).2 =
      some { cx with name := y, notes := some "" } ∧
    getCredential x (updateCredential (mkUpdateCredRename x y) s).2 = none ∧
    (updateAlias (mkUpdateAliasRename x y) s).1 = none ∧
    getAlias y (updateAlias (mkUpdateAliasRename x y) s).2 =
      some { ar with name := y, notes := some "" } ∧
    getAlias x (updateAlias (mkUpdateAliasRename x y) s).2 = none := by
  have e1 := updateCredential_rename_state x y s cx hcx
  have e2 := updateAlias_rename_state x y s ar hax
  refine ⟨?_, ?_, ?_, ?_, ?_, ?_⟩
  · rw [e1]
    exact persistTail_fst_none _ key n sa hkey hn hsalt
  · rw [getCredential, e1, (persistTail_preserves _).1]
    simp [setCreds, dictGet_dictSet_self, patchCredential]
  · rw [getCredential, e1, (persistTail_preserves _).1]
    simp only [setCreds]
    rw [dictGet_dictSet_ne hxy, dictGet_dictSet_ne hxy]
    exact dictGet_dictPop_self x hndc
  · rw [e2]
    exact persistTail_fst_none _ key n sa hkey hn hsalt
  · rw [getAlias, e2, persistTail_aliases]
    simp [setAliases, dictGet_dictSet_self, patchAlias]
  · rw [getAlias, e2, persistTail_aliases]
    simp only [setAliases]
    rw [dictGet_dictSet_ne hxy, dictGet_dictSet_ne hxy]
    exact dictGet_dictPop_self x hnda

/-- Claim C9 witness: the unlocked demo vault with credentials and aliases
"a" and "b"; renaming "a" to "b" silently overwrites the "b" records. -/
theorem C9_rename_overwrites_witness :
    (updateCredential (mkUpdateCredRename "a" "b") demoVaultTwo).1 = none ∧
    getCredential "b" (updateCredential (mkUpdateCredRename "a" "b") demoVaultTwo).2 =
      some { name := "b", username := "ua", password := "pa",
             notes := some "", tags := none } ∧
    getCredential "a" (updateCredential (mkUpdateCredRename "a" "b") demoVaultTwo).2 = none ∧
    (updateAlias (mkUpdateAliasRename "a" "b") demoVaultTwo).1 = none ∧
    getAlias "b" (updateAlias (mkUpdateAliasRename "a" "b") demoVaultTwo).2 =
      some { name := "b", command := "ca", notes := some "", tags := none } ∧
    getAlias "a" (updateAlias (mkUpdateAliasRename "a" "b") demoVaultTwo).2 = none :=
  C9_rename_overwrites demoVaultTwo "a" "b" demoCredA demoAliasA demoKey 7 0
    rfl rfl rfl (by simp [keysNodup, demoVaultTwo]) (by simp [keysNodup, demoVaultTwo])
    (by decide) rfl rfl rfl rfl
